import Mathlib

/-!
Verification of the cache-entry lifecycle of `cache-async-fn` (`src/index.ts`).

The TypeScript core wraps an async producer `fn` behind a per-group cache.
We embed it shallowly:

* A JS `Promise<U>` held inside a cache entry is one of three things in the
  source: the promise returned by a producer invocation (`fn(...args)`),
  an `Promise.resolve(value)`, or a `Promise.reject()`.  We model it as
  `PromiseRef U`, with producer promises identified by the invocation
  counter `nextPid` (the n-th producer call), so promise *instance*
  identity of producer promises is id equality.
* `ICacheData` mirrors the source interface field by field; in addition it
  carries `id : Nat`, a token modelling JS object identity of the entry
  object: every object literal the source creates (`reload`'s new entry,
  `set`'s new entry, the settlement write `{...cachedData, ...}`) is a new
  object, hence gets a fresh token from `nextId`.  The source's
  reference-identity test `cache.get(cacheGroup) !== cachedData` becomes a
  token comparison.
* The storage collaborator (`ICacheStorage`) is a per-group map with
  synchronous read-after-write; we model it as `String → Option ICacheData`
  updated pointwise, and `Date.now()` as the `now` field of the state,
  advanced by `tick` while an asynchronous settlement is outstanding.
* The option values `mustRevalidate : Bool` and `ttl : Int` are passed to
  exactly the operations whose closures read them in the source.
-/

namespace CacheAsyncFn

/-- A JS promise as stored by the cache: the promise of the `pid`-th
producer invocation, an already-resolved `Promise.resolve v`, or an
already-rejected `Promise.reject()`. -/
inductive PromiseRef (U : Type) where
  | producer (pid : Nat)
  | resolvedP (v : U)
  | rejectedP
  deriving DecidableEq, Repr

/-- The source's `ICacheData<U>`: `key`, `promise`, `settled`, `value?`,
`expireAt`, plus `id`, the token standing for JS object identity of the
entry object (fresh per created object literal). -/
structure ICacheData (U : Type) where
  id : Nat
  key : String
  promise : PromiseRef U
  settled : Bool
  value : Option U
  expireAt : Int
  deriving DecidableEq, Repr

/-- The cache state: the storage collaborator's per-group map, the
next free entry-identity token, the producer-invocation counter (also the
id of the next producer promise), and the current `Date.now()`. -/
structure CacheState (U : Type) where
  store : String → Option (ICacheData U)
  nextId : Nat
  nextPid : Nat
  now : Nat

/-- `cache.set(cacheGroup, data?)`: point update of the per-group map. -/
def storeWrite {U : Type} (s : CacheState U) (g : String)
    (d : Option (ICacheData U)) : CacheState U :=
  { s with store := fun g' => if g' = g then d else s.store g' }

/-- Passage of time between synchronous operations (`Date.now()` grows). -/
def tick {U : Type} (dt : Nat) (s : CacheState U) : CacheState U :=
  { s with now := s.now + dt }

/-- Source `isSettled`: `cachedData?.key === cacheKey && cachedData.settled`. -/
def isSettledOp {U : Type} (kt : String × String) (s : CacheState U) : Bool :=
  match s.store kt.1 with
  | some cachedData => cachedData.key == kt.2 && cachedData.settled
  | none => false

/-- Source `isFresh`: key matches, `settled`, and
`expireAt < 0 || expireAt > Date.now()`. -/
def isFreshOp {U : Type} (kt : String × String) (s : CacheState U) : Bool :=
  match s.store kt.1 with
  | some cachedData =>
      cachedData.key == kt.2 && cachedData.settled &&
        (decide (cachedData.expireAt < 0) ||
         decide (cachedData.expireAt > (s.now : Int)))
  | none => false

/-- Source `get`: returns `cachedData.value` when an entry exists and
`!mustRevalidate || isFresh(...)`; `undefined` (here `none`) otherwise. -/
def getOp {U : Type} (mustRevalidate : Bool) (kt : String × String)
    (s : CacheState U) : Option U :=
  match s.store kt.1 with
  | some cachedData =>
      if !mustRevalidate || isFreshOp kt s then cachedData.value else none
  | none => none

/-- Source `set`: installs
`{key: cacheKey, ...cache.get(cacheGroup), promise, value, expireAt, settled: true}`.
Note the spread of the old entry comes after `key: cacheKey`, so an existing
entry's `key` field overrides the resolved `cacheKey`; the new object gets a
fresh identity token.  `expireAt = valueTtl < 0 ? valueTtl : Date.now() + valueTtl`;
`promise = value == null ? Promise.reject() : Promise.resolve(value)`. -/
def setOp {U : Type} (kt : String × String) (value : Option U)
    (valueTtl : Int) (s : CacheState U) : CacheState U :=
  let expireAt : Int := if valueTtl < 0 then valueTtl else (s.now : Int) + valueTtl
  let newKey : String :=
    match s.store kt.1 with
    | some old => old.key
    | none => kt.2
  let d : ICacheData U :=
    { id := s.nextId
      key := newKey
      promise := match value with
        | some v => PromiseRef.resolvedP v
        | none => PromiseRef.rejectedP
      settled := true
      value := value
      expireAt := expireAt }
  { storeWrite s kt.1 (some d) with nextId := s.nextId + 1 }

/-- Source `set` with its defaulted third parameter `valueTtl = ttl`
(the configured option). -/
def setDefaultTtl {U : Type} (ttlOpt : Int) (kt : String × String)
    (value : Option U) (s : CacheState U) : CacheState U :=
  setOp kt value ttlOpt s

/-- The `set` of the context object returned by `getContext`:
`set: (value, ttl = -1) => set(key, value, ttl)`. -/
def contextSet {U : Type} (kt : String × String) (value : U) (ttlArg : Int)
    (s : CacheState U) : CacheState U :=
  setOp kt (some value) ttlArg s

/-- `context.set(value)` with the `ttl` argument omitted: the default is
the literal `-1`, not the configured option. -/
def contextSetNoTtl {U : Type} (kt : String × String) (value : U)
    (s : CacheState U) : CacheState U :=
  contextSet kt value (-1) s

/-- Source `delete_`: `cache.set(cacheGroup)` (clears the slot). -/
def deleteOp {U : Type} (kt : String × String) (s : CacheState U) :
    CacheState U :=
  storeWrite s kt.1 none

/-- Source `clear`: `cache.clear()`. -/
def clearOp {U : Type} (s : CacheState U) : CacheState U :=
  { s with store := fun _ => none }

/-- Result of `reload`: the successor state and the entry object
(`cachedData`) the reload installed; `entry.promise` is the promise the
source returns to the caller. -/
structure ReloadResult (U : Type) where
  state : CacheState U
  entry : ICacheData U

/-- Source `reload`: invokes the producer (`fn(...args)`, a fresh producer
promise), builds `{...oldCache, key: cacheKey, promise, expireAt: -1,
settled: false}` — the spread carries the previous entry's `value` over —
and synchronously installs it. -/
def reloadOp {U : Type} (kt : String × String) (s : CacheState U) :
    ReloadResult U :=
  let oldCache := s.store kt.1
  let cachedData : ICacheData U :=
    { id := s.nextId
      key := kt.2
      promise := PromiseRef.producer s.nextPid
      settled := false
      value := match oldCache with
        | some o => o.value
        | none => none
      expireAt := -1 }
  { state :=
      { storeWrite s kt.1 (some cachedData) with
          nextId := s.nextId + 1
          nextPid := s.nextPid + 1 }
    entry := cachedData }

/-- The settlement callback `resolve(error, value?)` that `reload` registers
on the producer promise.  It fires later, against the state at that time:
if `cache.get(cacheGroup) !== cachedData` (identity, here token inequality)
it returns without writing; otherwise it writes
`{...cachedData, value, expireAt, settled: true}` (a fresh object) where
`expireAt = 0` on error and `ttl < 0 ? ttl : Date.now() + ttl` on success. -/
def resolveCb {U : Type} (ttlOpt : Int) (cacheGroup : String)
    (cachedData : ICacheData U) (error : Bool) (value : Option U)
    (s : CacheState U) : CacheState U :=
  match s.store cacheGroup with
  | some cur =>
      if cur.id = cachedData.id then
        let expireAt : Int :=
          if error then 0 else if ttlOpt < 0 then ttlOpt else (s.now : Int) + ttlOpt
        let d : ICacheData U :=
          { id := s.nextId
            key := cachedData.key
            promise := cachedData.promise
            settled := true
            value := value
            expireAt := expireAt }
        { storeWrite s cacheGroup (some d) with nextId := s.nextId + 1 }
      else s
  | none => s

/-- Source main invocation path (`call`): return the existing promise when
an entry exists and is fresh, otherwise `reload`.  Returns the successor
state and the promise handed to the caller. -/
def callOp {U : Type} (kt : String × String) (s : CacheState U) :
    CacheState U × PromiseRef U :=
  match s.store kt.1 with
  | some cachedData =>
      if isFreshOp kt s then (s, cachedData.promise)
      else
        let r := reloadOp kt s
        (r.state, r.entry.promise)
  | none =>
      let r := reloadOp kt s
      (r.state, r.entry.promise)

/-- A primitive key as the resolver may return it
(`string | number | undefined`, with `null` folded into `undef` as both are
caught by `?? `). -/
inductive CachePrimitiveKey where
  | str (s : String)
  | num (n : Int)
  | undef
  deriving DecidableEq, Repr

/-- The per-element stringification of `resolveKey`: nullish components
become the empty string, numbers are stringified, strings pass through. -/
def keyToString : CachePrimitiveKey → String
  | CachePrimitiveKey.str s => s
  | CachePrimitiveKey.num n => toString n
  | CachePrimitiveKey.undef => ""

/-- What a user resolver may actually return at runtime: a scalar primitive
or an array of primitives (of any length — the declared tuple type is not
enforced at runtime). -/
inductive ResolverResult where
  | scalar (p : CachePrimitiveKey)
  | arr (l : List CachePrimitiveKey)
  deriving DecidableEq, Repr

/-- Source `resolveKey` applied to the resolver's result:
`Array.isArray(res) ? res : [res, res]`, then element-wise stringification.
The facade then destructures the first two components. -/
def resolveKey : ResolverResult → List String
  | ResolverResult.scalar p => [p, p].map keyToString
  | ResolverResult.arr l => l.map keyToString

/-- The default resolver `() => ''`: ignores all arguments. -/
def defaultResolver {A : Type} (_args : List A) : ResolverResult :=
  ResolverResult.scalar (CachePrimitiveKey.str "")

/-! Helper lemmas shared by several claim proofs. -/

/-- Immediately after `reload`, the store's entry for the group is the
entry object `reload` installed. -/
theorem reload_store_get {U : Type} (kt : String × String) (s : CacheState U) :
    (reloadOp kt s).state.store kt.1 = some (reloadOp kt s).entry := by
  simp [reloadOp, storeWrite]

/-- The settlement callback is a no-op whenever the store's current entry
for its group is not (identity-wise) the entry it belongs to. -/
theorem resolveCb_noop {U : Type} (ttlOpt : Int) (g : String)
    (d : ICacheData U) (err : Bool) (v : Option U) (s : CacheState U)
    (hne : ∀ cur, s.store g = some cur → cur.id ≠ d.id) :
    resolveCb ttlOpt g d err v s = s := by
  unfold resolveCb
  cases hs : s.store g with
  | none => rfl
  | some cur => simp [hne cur hs]

/-! Claim theorems. -/

/-- C6 (confirmed): `reload` always invokes the producer — handing the
caller a fresh producer promise and bumping the invocation counter —
and synchronously installs a new Pending entry with the resolved key,
that promise, `expireAt = -1` and `settled = false`, while the only other
entry field, the previously cached `value`, is carried over unchanged from
the group's previous entry (absent when there was none). -/
theorem reload_installs_pending {U : Type} (g k : String) (s : CacheState U) :
    ((reloadOp (g, k) s).state.nextPid = s.nextPid + 1) ∧
    ((reloadOp (g, k) s).entry.promise = PromiseRef.producer s.nextPid) ∧
    ((reloadOp (g, k) s).state.store g = some (reloadOp (g, k) s).entry) ∧
    ((reloadOp (g, k) s).entry.key = k) ∧
    ((reloadOp (g, k) s).entry.expireAt = -1) ∧
    ((reloadOp (g, k) s).entry.settled = false) ∧
    (∀ old, s.store g = some old → (reloadOp (g, k) s).entry.value = old.value) ∧
    (s.store g = none → (reloadOp (g, k) s).entry.value = none) := by
  refine ⟨rfl, rfl, reload_store_get (g, k) s, rfl, rfl, rfl, ?_, ?_⟩
  · intro old hold
    simp [reloadOp, hold]
  · intro h
    simp [reloadOp, h]

/-- A concrete settled entry used by witnesses. -/
def c6Entry : ICacheData Nat :=
  { id := 0
    key := "a"
    promise := PromiseRef.resolvedP 7
    settled := true
    value := some 7
    expireAt := 5 }

/-- A concrete one-entry state used by witnesses. -/
def c6State : CacheState Nat :=
  { store := fun g => if g = "g" then some c6Entry else none
    nextId := 1
    nextPid := 3
    now := 2 }

/-- Witness for C6 at a concrete state holding a previous entry with a
cached value. -/
theorem reload_installs_pending_witness :
    ((reloadOp ("g", "k") c6State).entry.value = some 7) ∧
    ((reloadOp ("g", "k") c6State).entry.settled = false) ∧
    ((reloadOp ("g", "k") c6State).entry.expireAt = -1) ∧
    ((reloadOp ("g", "k") c6State).state.nextPid = 4) := by
  have h := reload_installs_pending "g" "k" c6State
  have hv := h.2.2.2.2.2.2.1 c6Entry (by simp [c6State])
  exact ⟨by simpa [c6Entry] using hv, h.2.2.2.2.2.1, h.2.2.2.2.1, h.1.trans rfl⟩

/-- C2 (amended): while the group's entry is Fresh — settled, key-matching
and unexpired — `call` performs no producer invocation and leaves the state
untouched, handing every caller the entry's stored promise instance; a
repeated call still receives the same promise. -/
theorem call_fresh_dedup {U : Type} (kt : String × String) (s : CacheState U)
    (h : isFreshOp kt s = true) :
    ∃ cd, s.store kt.1 = some cd ∧ callOp kt s = (s, cd.promise) ∧
      (callOp kt ((callOp kt s).1)).2 = cd.promise := by
  cases hs : s.store kt.1 with
  | none => simp [isFreshOp, hs] at h
  | some cd =>
    have hc : callOp kt s = (s, cd.promise) := by
      unfold callOp
      rw [hs]
      simp [h]
    exact ⟨cd, rfl, hc, by simp [hc]⟩

/-- A concrete fresh entry for the C2 witness. -/
def c2Entry : ICacheData Nat :=
  { id := 0
    key := "k"
    promise := PromiseRef.resolvedP 7
    settled := true
    value := some 7
    expireAt := -1 }

/-- A concrete state whose entry for group `g` is fresh. -/
def c2State : CacheState Nat :=
  { store := fun g => if g = "g" then some c2Entry else none
    nextId := 1
    nextPid := 1
    now := 50 }

/-- Witness for the amended C2: at a fresh entry, `call` returns the stored
promise and invokes no producer. -/
theorem call_fresh_dedup_witness :
    isFreshOp ("g", "k") c2State = true ∧
    (callOp ("g", "k") c2State).2 = PromiseRef.resolvedP 7 ∧
    (callOp ("g", "k") c2State).1.nextPid = c2State.nextPid := by
  have hf : isFreshOp ("g", "k") c2State = true := by decide
  obtain ⟨cd, hstore, hc, _⟩ := call_fresh_dedup ("g", "k") c2State hf
  have hcd : cd = c2Entry := by
    have hsome : some cd = some c2Entry := by
      rw [← hstore]
      rfl
    exact Option.some.inj hsome
  refine ⟨hf, ?_, ?_⟩
  · rw [hc, hcd]
    rfl
  · rw [hc]

/-- The empty concrete state used by the C2 counterexample. -/
def c2Empty : CacheState Nat :=
  { store := fun _ => none
    nextId := 0
    nextPid := 0
    now := 100 }

/-- C2 counterexample: starting from an empty cache, a first `call`
installs a Pending (not settled) entry, yet a second `call` issued while
that entry is Pending performs a second producer invocation (the counter
reaches 2) and receives a different promise instance — refuting the claim
that calls during Pending-or-Fresh share one producer invocation and one
promise. -/
theorem call_pending_not_deduped :
    ((callOp ("", "") c2Empty).1.store "").isSome = true ∧
    isSettledOp ("", "") (callOp ("", "") c2Empty).1 = false ∧
    (callOp ("", "") (callOp ("", "") c2Empty).1).1.nextPid = 2 ∧
    (callOp ("", "") (callOp ("", "") c2Empty).1).2 ≠ (callOp ("", "") c2Empty).2 := by
  refine ⟨rfl, rfl, rfl, by decide⟩

/-- The operations that can replace a group's entry while a reload's
producer promise is still outstanding: a later `reload`, `set`, `delete`
or `clear` (each resolving to the same group). -/
inductive SupersedeOp (U : Type) where
  | newReload (key2 : String)
  | newSet (key2 : String) (value : Option U) (valueTtl : Int)
  | doDelete
  | doClear

/-- Run a superseding operation against group `g`. -/
def applySupersede {U : Type} (op : SupersedeOp U) (g : String)
    (s : CacheState U) : CacheState U :=
  match op with
  | SupersedeOp.newReload k2 => (reloadOp (g, k2) s).state
  | SupersedeOp.newSet k2 v t => setOp (g, k2) v t s
  | SupersedeOp.doDelete => deleteOp (g, "") s
  | SupersedeOp.doClear => clearOp s

/-- After a superseding operation, the group's entry — if any — is a newly
created object whose identity token is the state's `nextId`. -/
theorem applySupersede_fresh_id {U : Type} (op : SupersedeOp U) (g : String)
    (s : CacheState U) (cur : ICacheData U)
    (hcur : (applySupersede op g s).store g = some cur) :
    cur.id = s.nextId := by
  cases op with
  | newReload k2 =>
      simp [applySupersede, reloadOp, storeWrite] at hcur
      rw [← hcur]
  | newSet k2 v t =>
      simp [applySupersede, setOp, storeWrite] at hcur
      rw [← hcur]
  | doDelete => simp [applySupersede, deleteOp, storeWrite] at hcur
  | doClear => simp [applySupersede, clearOp] at hcur

/-- C1 (confirmed): the settlement callback registered by a `reload`
mutates the store only if the group's current entry is still
reference-identical (same identity token) to the entry that reload
installed — on any other current entry, or none, the callback returns the
state unchanged; and if a later `reload`, `set`, `delete` or `clear`
replaced the entry (with any amount of time passing around it) before the
producer promise settled, the callback performs no write at all. -/
theorem resolve_race_safety {U : Type} (ttlOpt : Int) (s : CacheState U)
    (g k : String) (err : Bool) (v : Option U) (op : SupersedeOp U)
    (dt1 dt2 : Nat) :
    (∀ s' : CacheState U,
        (∀ cur, s'.store g = some cur → cur.id ≠ (reloadOp (g, k) s).entry.id) →
        resolveCb ttlOpt g (reloadOp (g, k) s).entry err v s' = s') ∧
    (resolveCb ttlOpt g (reloadOp (g, k) s).entry err v
        (tick dt2 (applySupersede op g (tick dt1 (reloadOp (g, k) s).state)))
      = tick dt2 (applySupersede op g (tick dt1 (reloadOp (g, k) s).state))) := by
  constructor
  · intro s' hne
    exact resolveCb_noop ttlOpt g _ err v s' hne
  · apply resolveCb_noop
    intro cur hcur
    have hid : cur.id = s.nextId + 1 := by
      have : (applySupersede op g (tick dt1 (reloadOp (g, k) s).state)).store g
          = some cur := hcur
      exact applySupersede_fresh_id op g _ cur this
    have hd : (reloadOp (g, k) s).entry.id = s.nextId := rfl
    rw [hid, hd]
    omega

/-- An entry whose identity token differs from any token a reload from
`c2Empty` can produce. -/
def c1OtherEntry : ICacheData Nat :=
  { id := 42
    key := "k"
    promise := PromiseRef.rejectedP
    settled := true
    value := none
    expireAt := 0 }

/-- A state holding `c1OtherEntry` for group `g`. -/
def c1OtherState : CacheState Nat :=
  { store := fun g => if g = "g" then some c1OtherEntry else none
    nextId := 43
    nextPid := 0
    now := 7 }

/-- Witness for C1: concretely, after a reload from the empty state, a
`delete` and a second `reload` each leave the original callback with
nothing to write; and against a state holding a different entry object the
callback is also a no-op. -/
theorem resolve_race_safety_witness :
    (resolveCb 5 "g" (reloadOp ("g", "k") c2Empty).entry true none
        (tick 0 (applySupersede SupersedeOp.doDelete "g"
          (tick 0 (reloadOp ("g", "k") c2Empty).state)))
      = tick 0 (applySupersede SupersedeOp.doDelete "g"
          (tick 0 (reloadOp ("g", "k") c2Empty).state))) ∧
    (resolveCb 5 "g" (reloadOp ("g", "k") c2Empty).entry true none
        (tick 3 (applySupersede (SupersedeOp.newReload "k2") "g"
          (tick 2 (reloadOp ("g", "k") c2Empty).state)))
      = tick 3 (applySupersede (SupersedeOp.newReload "k2") "g"
          (tick 2 (reloadOp ("g", "k") c2Empty).state))) ∧
    (resolveCb 5 "g" (reloadOp ("g", "k") c2Empty).entry true none c1OtherState
      = c1OtherState) :=
  ⟨(resolve_race_safety 5 c2Empty "g" "k" true none SupersedeOp.doDelete 0 0).2,
   (resolve_race_safety 5 c2Empty "g" "k" true none (SupersedeOp.newReload "k2") 2 3).2,
   (resolve_race_safety 5 c2Empty "g" "k" true none SupersedeOp.doDelete 0 0).1
     c1OtherState (by
       intro cur hcur
       have hc : cur = c1OtherEntry := by
         have hsome : some cur = some c1OtherEntry := by
           rw [← hcur]
           rfl
         exact Option.some.inj hsome
       rw [hc]
       decide)⟩

/-- C3 counterexample: for a group whose stored entry was created for key
`a`, a `get` resolved to key `b` with `mustRevalidate` unset still returns
the cached value — the claimed "key mismatch behaves as if no entry
exists" fails for `get`, which never consults the key unless
`mustRevalidate` is configured (while `isFresh` and `isSettled` do report
as if absent). -/
theorem get_ignores_key_mismatch :
    c6State.store "g" = some c6Entry ∧
    c6Entry.key = "a" ∧
    getOp false ("g", "b") c6State = some 7 ∧
    isFreshOp ("g", "b") c6State = false ∧
    isSettledOp ("g", "b") c6State = false := by
  refine ⟨rfl, rfl, rfl, rfl, rfl⟩

/-- C3 (amended): `get` returns the group entry's stored value whenever
`mustRevalidate` is unset, or whenever the entry is fresh for the queried
key; with `mustRevalidate` set and the entry not fresh it returns nothing,
as it does when no entry exists.  A key mismatch makes `isFresh` and
`isSettled` behave as if no entry exists, and makes `get` do so only when
`mustRevalidate` is configured. -/
theorem get_characterization {U : Type} (mr : Bool) (kt : String × String)
    (s : CacheState U) :
    (s.store kt.1 = none → getOp mr kt s = none) ∧
    (∀ cd, s.store kt.1 = some cd → mr = false → getOp mr kt s = cd.value) ∧
    (∀ cd, s.store kt.1 = some cd → isFreshOp kt s = true →
      getOp mr kt s = cd.value) ∧
    (mr = true → isFreshOp kt s = false → getOp mr kt s = none) ∧
    (∀ cd, s.store kt.1 = some cd → cd.key ≠ kt.2 →
      isFreshOp kt s = false ∧ isSettledOp kt s = false ∧
        (mr = true → getOp mr kt s = none)) := by
  refine ⟨?_, ?_, ?_, ?_, ?_⟩
  · intro h
    simp [getOp, h]
  · intro cd h hmr
    simp [getOp, h, hmr]
  · intro cd h hf
    simp [getOp, h, hf]
  · intro hmr hf
    cases hs : s.store kt.1 with
    | none => simp [getOp, hs]
    | some cd => simp [getOp, hs, hmr, hf]
  · intro cd h hne
    have hf : isFreshOp kt s = false := by
      simp [isFreshOp, h, hne]
    have hst : isSettledOp kt s = false := by
      simp [isSettledOp, h, hne]
    exact ⟨hf, hst, fun hmr => by simp [getOp, h, hmr, hf]⟩

/-- Witness for the amended C3 at a key-mismatched concrete state. -/
theorem get_characterization_witness :
    getOp false ("g", "b") c6State = some 7 ∧
    getOp true ("g", "b") c6State = none ∧
    isFreshOp ("g", "b") c6State = false := by
  have h := get_characterization false ("g", "b") c6State
  have h2 := get_characterization true ("g", "b") c6State
  have hm := h2.2.2.2.2 c6Entry rfl (by decide)
  have hv := h.2.1 c6Entry rfl rfl
  exact ⟨by simpa [c6Entry] using hv, hm.2.2 rfl, hm.1⟩

/-- The claim's reading of freshness, stated verbatim: the stored entry's
key matches the query key, the entry is settled, and its `expireAt` is the
never-expires sentinel `-1` or strictly greater than the current time
(the source instead tests `expireAt < 0`). -/
def isFreshClaimed {U : Type} (kt : String × String) (s : CacheState U) :
    Bool :=
  match s.store kt.1 with
  | some cachedData =>
      cachedData.key == kt.2 && cachedData.settled &&
        (decide (cachedData.expireAt = -1) ||
         decide (cachedData.expireAt > (s.now : Int)))
  | none => false

/-- A reachable state with a settled entry whose `expireAt` is `-2`:
reload from the empty state, then let the producer resolve successfully
under a configured `ttl` of `-2` (the settlement writes `expireAt = ttl`). -/
def c4State : CacheState Nat :=
  resolveCb (-2) "g" (reloadOp ("g", "k") c2Empty).entry false (some 3)
    (reloadOp ("g", "k") c2Empty).state

/-- C4 counterexample: in the reachable state `c4State` the entry is
settled with matching key and `expireAt = -2`; the source's `isFresh`
accepts it (it tests `expireAt < 0`), but the claim's formulation — the
sentinel `-1` or an expiry strictly in the future — rejects it. -/
theorem isFresh_negative_expiry_counterexample :
    c4State.store "g" =
      some { id := 1
             key := "k"
             promise := PromiseRef.producer 0
             settled := true
             value := some 3
             expireAt := -2 } ∧
    isFreshOp ("g", "k") c4State = true ∧
    isFreshClaimed ("g", "k") c4State = false := by
  refine ⟨by decide, by decide, by decide⟩

/-- C4 (amended): `isFresh` is true iff the stored entry's key matches the
query key, the entry is settled, and `expireAt` is negative (any negative
value, of which `-1` is the conventional sentinel) or strictly greater
than the current time; consequently, after a successful settlement under
`ttl = T ≥ 0`, the entry is fresh exactly while strictly fewer than `T` ms
have elapsed since settlement. -/
theorem isFresh_characterization {U : Type} (kt : String × String)
    (s : CacheState U) (T : Int) (hT : 0 ≤ T) (g k : String) (v : U)
    (s0 : CacheState U) (dt dtA : Nat) :
    (isFreshOp kt s = true ↔
      ∃ cd, s.store kt.1 = some cd ∧ cd.key = kt.2 ∧ cd.settled = true ∧
        (cd.expireAt < 0 ∨ cd.expireAt > (s.now : Int))) ∧
    (isFreshOp (g, k)
        (tick dtA (resolveCb T g (reloadOp (g, k) s0).entry false (some v)
          (tick dt (reloadOp (g, k) s0).state))) = true ↔ (dtA : Int) < T) := by
  constructor
  · cases hs : s.store kt.1 with
    | none => simp [isFreshOp, hs]
    | some cd =>
        simp [isFreshOp, hs]
        tauto
  · simp [isFreshOp, resolveCb, reloadOp, tick, storeWrite, not_lt.mpr hT]
    omega

/-- Witness for the amended C4: with `ttl = 5`, the settled entry is fresh
2 ms after settlement and no longer fresh 7 ms after settlement. -/
theorem isFresh_characterization_witness :
    isFreshOp ("g", "k")
      (tick 2 (resolveCb 5 "g" (reloadOp ("g", "k") c2Empty).entry false
        (some 9) (tick 1 (reloadOp ("g", "k") c2Empty).state))) = true ∧
    isFreshOp ("g", "k")
      (tick 7 (resolveCb 5 "g" (reloadOp ("g", "k") c2Empty).entry false
        (some 9) (tick 1 (reloadOp ("g", "k") c2Empty).state))) = false := by
  have h2 :=
    (isFresh_characterization ("g", "k") c2Empty 5 (by decide) "g" "k" 9
      c2Empty 1 2).2
  have h7 :=
    (isFresh_characterization ("g", "k") c2Empty 5 (by decide) "g" "k" 9
      c2Empty 1 7).2
  constructor
  · exact h2.mpr (by decide)
  · have hne : isFreshOp ("g", "k")
        (tick 7 (resolveCb 5 "g" (reloadOp ("g", "k") c2Empty).entry false
          (some 9) (tick 1 (reloadOp ("g", "k") c2Empty).state))) ≠ true :=
      fun h => absurd (h7.mp h) (by decide)
    exact Bool.eq_false_iff.mpr hne

/-- Scenario: reload at `(g, k)`, let `dt` ms pass, then the producer
promise rejects while the installed entry is still current. -/
def afterRejection {U : Type} (ttlOpt : Int) (g k : String)
    (s : CacheState U) (dt : Nat) : CacheState U :=
  resolveCb ttlOpt g (reloadOp (g, k) s).entry true none
    (tick dt (reloadOp (g, k) s).state)

/-- Scenario: reload at `(g, k)`, let `dt` ms pass, then the producer
promise resolves with `v` while the installed entry is still current. -/
def afterSuccess {U : Type} (ttlOpt : Int) (g k : String) (v : U)
    (s : CacheState U) (dt : Nat) : CacheState U :=
  resolveCb ttlOpt g (reloadOp (g, k) s).entry false (some v)
    (tick dt (reloadOp (g, k) s).state)

/-- C5 (confirmed): when the producer promise rejects while the reload's
entry is still current, the callback records a settled entry with
`expireAt = 0` and no value; immediately afterwards `isSettled` is true
and `isFresh` is false, and the next `call` performs a new producer
invocation, returning the new producer promise rather than the failed
entry's; the rejection itself still reaches whoever awaited the promise
returned by `call`/`reload`, because `reload` hands back the producer
promise unmodified and the callback never touches it. -/
theorem rejection_settles_stale {U : Type} (ttlOpt : Int) (g k : String)
    (s : CacheState U) (dt : Nat) :
    ((reloadOp (g, k) s).entry.promise = PromiseRef.producer s.nextPid) ∧
    ((afterRejection ttlOpt g k s dt).store g =
      some { id := s.nextId + 1
             key := k
             promise := PromiseRef.producer s.nextPid
             settled := true
             value := none
             expireAt := 0 }) ∧
    isSettledOp (g, k) (afterRejection ttlOpt g k s dt) = true ∧
    isFreshOp (g, k) (afterRejection ttlOpt g k s dt) = false ∧
    ((callOp (g, k) (afterRejection ttlOpt g k s dt)).2 =
      PromiseRef.producer (s.nextPid + 1)) ∧
    ((callOp (g, k) (afterRejection ttlOpt g k s dt)).1.nextPid =
      s.nextPid + 2) ∧
    (PromiseRef.producer (s.nextPid + 1) : PromiseRef U) ≠
      PromiseRef.producer s.nextPid := by
  have hstore : (afterRejection ttlOpt g k s dt).store g =
      some { id := s.nextId + 1
             key := k
             promise := PromiseRef.producer s.nextPid
             settled := true
             value := none
             expireAt := 0 } := by
    simp [afterRejection, resolveCb, reloadOp, tick, storeWrite]
  have hpid : (afterRejection ttlOpt g k s dt).nextPid = s.nextPid + 1 := by
    simp [afterRejection, resolveCb, reloadOp, tick, storeWrite]
  have hfresh : isFreshOp (g, k) (afterRejection ttlOpt g k s dt) = false := by
    simp [isFreshOp, hstore]
  have hsettled : isSettledOp (g, k) (afterRejection ttlOpt g k s dt) = true := by
    simp [isSettledOp, hstore]
  have hc : callOp (g, k) (afterRejection ttlOpt g k s dt) =
      ((reloadOp (g, k) (afterRejection ttlOpt g k s dt)).state,
       (reloadOp (g, k) (afterRejection ttlOpt g k s dt)).entry.promise) := by
    unfold callOp
    simp [hstore, hfresh]
  refine ⟨rfl, hstore, hsettled, hfresh, ?_, ?_, by simp⟩
  · rw [hc]
    simp [reloadOp, hpid]
  · rw [hc]
    simp [reloadOp, hpid]

/-- C7 counterexample: with configured `ttl = -2`, a successful settlement
writes back `expireAt = -2` — the `ttl` value itself — not the `-1` the
claim prescribes for every negative `ttl`. -/
theorem success_negative_ttl_counterexample :
    (afterSuccess (-2) "g" "k" 3 c2Empty 0).store "g" =
      some { id := 1
             key := "k"
             promise := PromiseRef.producer 0
             settled := true
             value := some 3
             expireAt := -2 } ∧
    ((-2 : Int) ≠ -1) := by
  refine ⟨by decide, by decide⟩

/-- C7 (amended): when the producer promise resolves successfully and the
entry is still current, the written-back entry has `expireAt = now + ttl`
when `ttl ≥ 0` and `expireAt = ttl` — the configured negative value
itself, which is `-1` exactly in the documented sentinel case — whenever
`ttl < 0`; since any negative `expireAt` passes the `expireAt < 0`
freshness test, a negative `ttl` (in particular `-1`) makes `isFresh`
remain true indefinitely after the settlement, regardless of elapsed
time. -/
theorem success_expiry {U : Type} (ttlOpt : Int) (g k : String) (v : U)
    (s : CacheState U) (dt : Nat) :
    ((afterSuccess ttlOpt g k v s dt).store g =
      some { id := s.nextId + 1
             key := k
             promise := PromiseRef.producer s.nextPid
             settled := true
             value := some v
             expireAt := if ttlOpt < 0 then ttlOpt
               else (s.now : Int) + (dt : Int) + ttlOpt }) ∧
    (ttlOpt < 0 → ∀ dtMore : Nat,
      isFreshOp (g, k) (tick dtMore (afterSuccess ttlOpt g k v s dt)) = true) := by
  have hstore : (afterSuccess ttlOpt g k v s dt).store g =
      some { id := s.nextId + 1
             key := k
             promise := PromiseRef.producer s.nextPid
             settled := true
             value := some v
             expireAt := if ttlOpt < 0 then ttlOpt
               else (s.now : Int) + (dt : Int) + ttlOpt } := by
    simp [afterSuccess, resolveCb, reloadOp, tick, storeWrite]
  refine ⟨hstore, ?_⟩
  intro hneg dtMore
  have hstore2 : (tick dtMore (afterSuccess ttlOpt g k v s dt)).store g =
      some { id := s.nextId + 1
             key := k
             promise := PromiseRef.producer s.nextPid
             settled := true
             value := some v
             expireAt := ttlOpt } := by
    rw [tick]
    rw [hstore, if_pos hneg]
  simp [isFreshOp, hstore2, hneg]

/-- Witness for the amended C7: with the sentinel `ttl = -1`, a settled
entry is still fresh 123456 ms later. -/
theorem success_expiry_witness :
    isFreshOp ("g", "k")
      (tick 123456 (afterSuccess (-1) "g" "k" 3 c2Empty 0)) = true :=
  (success_expiry (-1) "g" "k" 3 c2Empty 0).2 (by decide) 123456

/-- Witness for C5: concrete rejection after 4 ms from the empty state. -/
theorem rejection_settles_stale_witness :
    isSettledOp ("g", "k") (afterRejection 9 "g" "k" c2Empty 4) = true ∧
    isFreshOp ("g", "k") (afterRejection 9 "g" "k" c2Empty 4) = false ∧
    (callOp ("g", "k") (afterRejection 9 "g" "k" c2Empty 4)).2 =
      PromiseRef.producer 1 := by
  have h := rejection_settles_stale 9 "g" "k" c2Empty 4
  exact ⟨h.2.2.1, h.2.2.2.1, h.2.2.2.2.1⟩

/-- C8 (code bug, evaluated at the failing input): the source's `set`
builds `{key: cacheKey, ...cache.get(cacheGroup), promise, value,
expireAt, settled: true}` — the spread of the old entry comes after
`key: cacheKey`, so an existing entry's key overrides the resolved key
(`reload`, by contrast, spreads the old entry first and then sets `key`).
Setting value 7 at key tuple `("g", "b")` while the group holds an entry
created for key `"a"` installs a settled entry that still carries key
`"a"`: no producer runs and the promise is `Promise.resolve(7)` as the
claim says, but `isFresh`/`isSettled` at `("g", "b")` are false and, with
`mustRevalidate`, `get` at `("g", "b")` returns nothing — so the value
just set is not observable for the key tuple it was set with,
contradicting the claim and the operation's own doc comment ("Override
the cache with the specified value"). -/
theorem set_keeps_stale_key :
    ((setOp ("g", "b") (some 7) (-1) c6State).store "g" =
      some { id := 1
             key := "a"
             promise := PromiseRef.resolvedP 7
             settled := true
             value := some 7
             expireAt := -1 }) ∧
    ((setOp ("g", "b") (some 7) (-1) c6State).nextPid = c6State.nextPid) ∧
    isFreshOp ("g", "b") (setOp ("g", "b") (some 7) (-1) c6State) = false ∧
    isSettledOp ("g", "b") (setOp ("g", "b") (some 7) (-1) c6State) = false ∧
    getOp true ("g", "b") (setOp ("g", "b") (some 7) (-1) c6State) = none := by
  refine ⟨by decide, by decide, by decide, by decide, by decide⟩

/-- C9 counterexample: a malformed single-element array result survives
`resolveKey` as a single-component list — the key-within-group component
is simply missing (JS `undefined` at destructuring), not a string coerced
to the empty string — so the resolver does not always produce a
well-formed pair of strings. -/
theorem resolveKey_singleton_counterexample :
    resolveKey (ResolverResult.arr [CachePrimitiveKey.num 5]) = ["5"] ∧
    (resolveKey (ResolverResult.arr [CachePrimitiveKey.num 5])).length ≠ 2 := by
  refine ⟨rfl, by decide⟩

/-- C9 (amended): a scalar resolver result is duplicated into a
well-formed pair of strings; every present component is stringified, with
nullish components coerced to the empty string; an over-long array result
is tolerated, the effective tuple being the stringified first two
elements; but an array result with fewer than two elements yields exactly
that many components rather than a padded pair; the default resolver
ignores its arguments and yields the constant empty pair. -/
theorem resolveKey_spec :
    (∀ p, resolveKey (ResolverResult.scalar p) =
      [keyToString p, keyToString p]) ∧
    (∀ a b rest, (resolveKey (ResolverResult.arr (a :: b :: rest))).take 2 =
      [keyToString a, keyToString b]) ∧
    (keyToString CachePrimitiveKey.undef = "") ∧
    (∀ n : Int, keyToString (CachePrimitiveKey.num n) = toString n) ∧
    (∀ str, keyToString (CachePrimitiveKey.str str) = str) ∧
    (∀ args : List Nat, resolveKey (defaultResolver args) = ["", ""]) ∧
    (∀ l, (resolveKey (ResolverResult.arr l)).length = l.length) := by
  refine ⟨fun p => rfl, fun a b rest => rfl, rfl, fun n => rfl,
    fun str => rfl, fun args => rfl, fun l => by simp [resolveKey]⟩

/-- C10 (confirmed): `context.set(value)` with the ttl argument omitted
uses the literal default `-1` and installs a never-expiring entry
(`expireAt = -1`) without invoking the producer, ignoring the configured
`ttl` option entirely — whereas the internal `set` helper's defaulted
ttl parameter uses the configured option, yielding `expireAt = now + ttl`
for a finite `ttl ≥ 0`, which is never `-1`. -/
theorem contextSet_ignores_configured_ttl {U : Type} (ttlOpt : Int)
    (hT : 0 ≤ ttlOpt) (kt : String × String) (v : U) (s : CacheState U) :
    ((contextSetNoTtl kt v s).nextPid = s.nextPid) ∧
    (∀ e, (contextSetNoTtl kt v s).store kt.1 = some e →
      e.expireAt = -1 ∧ e.settled = true ∧ e.value = some v ∧
        e.promise = PromiseRef.resolvedP v) ∧
    (((contextSetNoTtl kt v s).store kt.1).isSome = true) ∧
    (∀ e, (setDefaultTtl ttlOpt kt (some v) s).store kt.1 = some e →
      e.expireAt = (s.now : Int) + ttlOpt ∧ e.expireAt ≠ -1) := by
  have hstore : (contextSetNoTtl kt v s).store kt.1 =
      some { id := s.nextId
             key := match s.store kt.1 with
               | some old => old.key
               | none => kt.2
             promise := PromiseRef.resolvedP v
             settled := true
             value := some v
             expireAt := -1 } := by
    simp [contextSetNoTtl, contextSet, setOp, storeWrite]
  have hstore2 : (setDefaultTtl ttlOpt kt (some v) s).store kt.1 =
      some { id := s.nextId
             key := match s.store kt.1 with
               | some old => old.key
               | none => kt.2
             promise := PromiseRef.resolvedP v
             settled := true
             value := some v
             expireAt := (s.now : Int) + ttlOpt } := by
    simp [setDefaultTtl, setOp, storeWrite, not_lt.mpr hT]
  refine ⟨rfl, ?_, ?_, ?_⟩
  · intro e he
    rw [hstore] at he
    injection he with he'
    rw [← he']
    exact ⟨rfl, rfl, rfl, rfl⟩
  · rw [hstore]
    rfl
  · intro e he
    rw [hstore2] at he
    injection he with he'
    rw [← he']
    refine ⟨rfl, ?_⟩
    show (s.now : Int) + ttlOpt ≠ -1
    omega

/-- Witness for C10 with configured `ttl = 1000`. -/
theorem contextSet_ignores_configured_ttl_witness :
    ((contextSetNoTtl ("g", "k") (3 : Nat) c2Empty).nextPid = 0) ∧
    (((contextSetNoTtl ("g", "k") (3 : Nat) c2Empty).store "g").isSome =
      true) := by
  have h := contextSet_ignores_configured_ttl 1000 (by decide) ("g", "k")
    (3 : Nat) c2Empty
  exact ⟨h.1, h.2.2.1⟩

end CacheAsyncFn
